import Mathlib

/-!
# Verification of the Submap engine of open3d_slam

The repository carries two revisions of `Submap.cpp`
(`src/unnamed/part_000` and `src/unnamed/part_001`), which differ in the
empty-scan guard of `insertScan`, the first-scan behaviour of
`insertScanDenseMap`, and what `update` rebuilds.  Namespace `PartA` embeds
the revision in `part_000`, namespace `PartB` the revision in `part_001`.
Geometry is carried out over exact rationals; external geometric helpers
that live outside the two translation units are abstracted into a `Prims`
record of operations together with the spec-level laws they satisfy.
-/

/-- A vector in ℝ³, modelled over ℚ (`Eigen::Vector3d`). -/
structure V3 where
  x : Rat
  y : Rat
  z : Rat
deriving DecidableEq, Repr

namespace V3

def zero : V3 := ⟨0, 0, 0⟩

def add (a b : V3) : V3 := ⟨a.x + b.x, a.y + b.y, a.z + b.z⟩

def smul (c : Rat) (a : V3) : V3 := ⟨c * a.x, c * a.y, c * a.z⟩

/-- `Eigen::Vector3d::Constant(c)`. -/
def const (c : Rat) : V3 := ⟨c, c, c⟩

end V3

/-- A 3×3 matrix over ℚ (rotation part of an `Eigen` isometry). -/
structure Mat3 where
  a00 : Rat
  a01 : Rat
  a02 : Rat
  a10 : Rat
  a11 : Rat
  a12 : Rat
  a20 : Rat
  a21 : Rat
  a22 : Rat
deriving DecidableEq, Repr

namespace Mat3

def one : Mat3 := ⟨1, 0, 0, 0, 1, 0, 0, 0, 1⟩

def mul (A B : Mat3) : Mat3 :=
  ⟨A.a00 * B.a00 + A.a01 * B.a10 + A.a02 * B.a20,
   A.a00 * B.a01 + A.a01 * B.a11 + A.a02 * B.a21,
   A.a00 * B.a02 + A.a01 * B.a12 + A.a02 * B.a22,
   A.a10 * B.a00 + A.a11 * B.a10 + A.a12 * B.a20,
   A.a10 * B.a01 + A.a11 * B.a11 + A.a12 * B.a21,
   A.a10 * B.a02 + A.a11 * B.a12 + A.a12 * B.a22,
   A.a20 * B.a00 + A.a21 * B.a10 + A.a22 * B.a20,
   A.a20 * B.a01 + A.a21 * B.a11 + A.a22 * B.a21,
   A.a20 * B.a02 + A.a21 * B.a12 + A.a22 * B.a22⟩

def mulVec (A : Mat3) (v : V3) : V3 :=
  ⟨A.a00 * v.x + A.a01 * v.y + A.a02 * v.z,
   A.a10 * v.x + A.a11 * v.y + A.a12 * v.z,
   A.a20 * v.x + A.a21 * v.y + A.a22 * v.z⟩

end Mat3

/-- A rigid transform (`Eigen::Isometry3d` / the 4×4 homogeneous `Transform`):
linear part `lin`, translation `tr`.  Application is `lin * p + tr`. -/
structure Transform where
  lin : Mat3
  tr : V3
deriving DecidableEq, Repr

namespace Transform

def apply (T : Transform) (p : V3) : V3 := V3.add (T.lin.mulVec p) T.tr

/-- `Transform::Identity()`. -/
def idT : Transform := ⟨Mat3.one, V3.zero⟩

/-- Eigen isometry composition `A * B`: apply `B` first, then `A`. -/
def comp (A B : Transform) : Transform :=
  ⟨A.lin.mul B.lin, V3.add (A.lin.mulVec B.tr) A.tr⟩

end Transform

/-- `open3d::geometry::PointCloud`: parallel lists of points, normals and
colors.  `IsEmpty()` of Open3D tests emptiness of `points_`. -/
structure PointCloud where
  points : List V3
  normals : List V3
  colors : List V3
deriving DecidableEq, Repr

namespace PointCloud

def emptyPC : PointCloud := ⟨[], [], []⟩

def HasNormals (c : PointCloud) : Bool := !c.normals.isEmpty

/-- `operator+=` of Open3D point clouds: concatenation of attributes. -/
def append (a b : PointCloud) : PointCloud :=
  ⟨a.points ++ b.points, a.normals ++ b.normals, a.colors ++ b.colors⟩

/-- `PointCloud::GetCenter()`: centroid of the points (zero when empty). -/
def getCenter (c : PointCloud) : V3 :=
  if c.points = [] then V3.zero
  else V3.smul (1 / (c.points.length : Rat)) (c.points.foldl V3.add V3.zero)

end PointCloud

/-- `o3d_slam::transform(mat, cloud)` (helpers.cpp, outside the two embedded
translation units).  Modelled from the spec: a rigid transform is applied
to the points, and to the normals with the rotation only; colors are kept. -/
def transformCloud (T : Transform) (c : PointCloud) : PointCloud :=
  ⟨c.points.map T.apply, c.normals.map T.lin.mulVec, c.colors⟩

/-- Integer voxel lattice coordinate. -/
abbrev VKey := Int × Int × Int

/-- Voxel key of a point: component-wise floor-division by the voxel size. -/
def keyOf (voxelSize : V3) (p : V3) : VKey :=
  (Rat.floor (p.x / voxelSize.x), Rat.floor (p.y / voxelSize.y),
   Rat.floor (p.z / voxelSize.z))

/-- One bucket of the dense voxelized cloud: key, aggregated (running-mean)
representative position, and the number of aggregated points. -/
structure VoxelEntry where
  key : VKey
  pos : V3
  count : Nat
deriving DecidableEq, Repr

/-- `VoxelizedPointCloud` (outside the embedded translation units).
Modelled from the spec: a mapping from voxel key to aggregated attributes,
with `insert(cloud)`, `removeKey(key)`, `transform(T)` (which repositions the
aggregated representatives and rebuilds the key index from the new
positions), and `empty()`. -/
structure VoxelizedPointCloud where
  voxelSize : V3
  entries : List VoxelEntry
deriving DecidableEq, Repr

namespace VoxelizedPointCloud

/-- Fresh, empty voxelized cloud with the given voxel size. -/
def fresh (voxelSize : V3) : VoxelizedPointCloud := ⟨voxelSize, []⟩

def isEmptyV (c : VoxelizedPointCloud) : Bool := c.entries.isEmpty

/-- Merge a point into the bucket of key `k`, running-mean aggregation with
incremented count; a new bucket is appended when the key is absent. -/
def bump (k : VKey) (p : V3) : List VoxelEntry → List VoxelEntry
  | [] => [⟨k, p, 1⟩]
  | e :: es =>
    if e.key = k then
      ⟨k, V3.smul (1 / ((e.count : Rat) + 1))
            (V3.add (V3.smul (e.count : Rat) e.pos) p), e.count + 1⟩ :: es
    else e :: bump k p es

def insertPoint (c : VoxelizedPointCloud) (p : V3) : VoxelizedPointCloud :=
  ⟨c.voxelSize, bump (keyOf c.voxelSize p) p c.entries⟩

/-- `insert(cloud)`: fold the cloud's points into the buckets. -/
def insert (c : VoxelizedPointCloud) (cloud : PointCloud) : VoxelizedPointCloud :=
  cloud.points.foldl insertPoint c

/-- `removeKey(key)`. -/
def removeKey (c : VoxelizedPointCloud) (k : VKey) : VoxelizedPointCloud :=
  ⟨c.voxelSize, c.entries.filter (fun e => e.key ≠ k)⟩

/-- `transform(T)`: reposition the aggregated representatives and rebuild
the key index from the new positions. -/
def transformV (T : Transform) (c : VoxelizedPointCloud) : VoxelizedPointCloud :=
  ⟨c.voxelSize,
   c.entries.map (fun e =>
     ⟨keyOf c.voxelSize (T.apply e.pos), T.apply e.pos, e.count⟩)⟩

end VoxelizedPointCloud

/-- `VoxelMap` (sparse voxel index, outside the embedded translation units).
Modelled from the spec: a mapping from voxel key to indices of the owning
cloud's points, under named layers; rebuilt, not incrementally patched. -/
structure VoxelMap where
  voxelSize : V3
  layers : List (String × List (VKey × Nat))
deriving DecidableEq, Repr

namespace VoxelMap

def fresh (voxelSize : V3) : VoxelMap := ⟨voxelSize, []⟩

def indexOfCloud (voxelSize : V3) (c : PointCloud) : List (VKey × Nat) :=
  c.points.enum.map (fun q => (keyOf voxelSize q.2, q.1))

def clear (m : VoxelMap) : VoxelMap := ⟨m.voxelSize, []⟩

/-- `insertCloud(layer, cloud)`: index each point by voxel key under the
named layer. -/
def insertCloud (m : VoxelMap) (layer : String) (c : PointCloud) : VoxelMap :=
  ⟨m.voxelSize, (layer, indexOfCloud m.voxelSize c) :: m.layers⟩

/-- `buildFromCloud(cloud)` of the part_001 revision: rebuild the index
from the cloud under a single anonymous layer. -/
def buildFromCloud (m : VoxelMap) (c : PointCloud) : VoxelMap :=
  ⟨m.voxelSize, [("", indexOfCloud m.voxelSize c)]⟩

end VoxelMap

/-- `Timer` (outside the embedded translation units).  Modelled from the
spec: wall-clock gating via `elapsedSec()` measured since the last
`reset()`; the model carries the instant of the last reset and each
operation receives the current wall-clock time explicitly. -/
structure Timer where
  lastReset : Rat
deriving DecidableEq, Repr

namespace Timer

def elapsedSec (now : Rat) (t : Timer) : Rat := now - t.lastReset

def reset (now : Rat) : Timer := ⟨now⟩

end Timer

/-- The statistics/stopwatch facet of `Timer` used for carving telemetry.
Modelled from the spec: a rolling accumulator of per-carve execution
times, reported and reset after 20 accumulated seconds. -/
structure StatTimer where
  lastReset : Rat
  stopwatchStart : Rat
  measurementsMsec : List Rat
deriving DecidableEq, Repr

namespace StatTimer

def startStopwatch (now : Rat) (t : StatTimer) : StatTimer :=
  ⟨t.lastReset, now, t.measurementsMsec⟩

def elapsedMsecSinceStopwatchStart (now : Rat) (t : StatTimer) : Rat :=
  (now - t.stopwatchStart) * 1000

def addMeasurementMsec (x : Rat) (t : StatTimer) : StatTimer :=
  ⟨t.lastReset, t.stopwatchStart, x :: t.measurementsMsec⟩

def elapsedSec (now : Rat) (t : StatTimer) : Rat := now - t.lastReset

def reset (now : Rat) (t : StatTimer) : StatTimer := ⟨now, t.stopwatchStart, []⟩

end StatTimer

/-- Cropper configuration (`CroppingVolumeParameters`, Parameters.hpp is
outside the embedded translation units; fields as listed by the spec). -/
structure CropperParameters where
  cropperName : String
  croppingRadius : Rat
  croppingMinZ : Rat
  croppingMaxZ : Rat
deriving DecidableEq, Repr

/-- `SpaceCarvingParameters` (fields as listed by the spec). -/
structure SpaceCarvingParameters where
  maxRangeToDrop : Rat
  voxelSizeRay : Rat
  stepSize : Rat
  minDotThresholdForDropping : Rat
  carveSpaceEveryNsec : Rat
deriving DecidableEq, Repr

/-- `MapBuilderParameters` (shared by `mapBuilder_` and `denseMapBuilder_`). -/
structure MapBuilderParameters where
  mapVoxelSize : Rat
  cropper : CropperParameters
  carving : SpaceCarvingParameters
deriving DecidableEq, Repr

inductive IcpObjective where
  | PointToPoint
  | PointToPlane
deriving DecidableEq, Repr

structure ScanMatcherParameters where
  kNNnormalEstimation : Nat
  icpObjective : IcpObjective
deriving DecidableEq, Repr

structure PlaceRecognitionParameters where
  featureVoxelSize : Rat
  normalEstimationRadius : Rat
  normalKnn : Nat
  featureRadius : Rat
  featureKnn : Nat
deriving DecidableEq, Repr

structure SubmapParameters where
  minSecondsBetweenFeatureComputation : Rat
deriving DecidableEq, Repr

/-- `MapperParameters` (fields as listed by the spec). -/
structure MapperParameters where
  mapBuilder : MapBuilderParameters
  denseMapBuilder : MapBuilderParameters
  scanMatcher : ScanMatcherParameters
  placeRecognition : PlaceRecognitionParameters
  submaps : SubmapParameters
deriving DecidableEq, Repr

/-- `CroppingVolume` (outside the embedded translation units).  Modelled
from the spec: a pose-bearing spatial predicate; only the pose and the
configuration are state, the membership test itself is abstracted into
`Prims`. -/
structure CroppingVolume where
  pose : Transform
  cropperName : String
  croppingRadius : Rat
  croppingMinZ : Rat
  croppingMaxZ : Rat
deriving DecidableEq, Repr

namespace CroppingVolume

def setPose (c : CroppingVolume) (T : Transform) : CroppingVolume :=
  ⟨T, c.cropperName, c.croppingRadius, c.croppingMinZ, c.croppingMaxZ⟩

end CroppingVolume

/-- `croppingVolumeFactory(par)` as called by the part_000 revision. -/
def croppingVolumeFactory (par : CropperParameters) : CroppingVolume :=
  ⟨Transform.idT, par.cropperName, par.croppingRadius, par.croppingMinZ,
   par.croppingMaxZ⟩

/-- `croppingVolumeFactory(name, radius, minZ, maxZ)` as called by the
part_001 revision. -/
def croppingVolumeFactoryB (na : String) (radius minZ maxZ : Rat) : CroppingVolume :=
  ⟨Transform.idT, na, radius, minZ, maxZ⟩

/-- FPFH-family feature descriptors: one 33-entry histogram per sparse
point (the exact values are produced by the abstracted extractor). -/
abbrev Feature := List (List Rat)

/-- `magic::voxelExpansionFactorAdjacencyBasedRevisiting` (magic.hpp is
outside the embedded translation units).  Modelled from the spec: the
expansion factor applied to the map voxel size when rebuilding the sparse
voxel index; its numeric value decides no claim. -/
def voxelExpansionFactorAdjacencyBasedRevisiting : Rat := 2

/-- The geometric helper routines called by `Submap.cpp` but implemented
outside the two embedded translation units (helpers.cpp and Open3D),
abstracted as an operation record, together with the laws the spec states
for them (normal estimation and normalization do not touch the point list;
voxel-downsampling within a cropping volume keeps a non-empty cloud
non-empty, since each occupied voxel keeps a representative and points
outside the volume are retained). -/
structure Prims where
  estimateNormals : Nat → PointCloud → PointCloud
  normalizeNormals : PointCloud → PointCloud
  voxelizeWithinCroppingVolume : Rat → CroppingVolume → PointCloud → PointCloud
  getIndicesWithinVolume : CroppingVolume → PointCloud → List Nat
  getIdxsOfCarvedPoints :
    PointCloud → PointCloud → V3 → List Nat → SpaceCarvingParameters → List Nat
  getKeysOfCarvedPoints :
    PointCloud → VoxelizedPointCloud → V3 → SpaceCarvingParameters → List VKey
  selectByIndex : PointCloud → List Nat → PointCloud
  removeByIds : List Nat → PointCloud → PointCloud
  crop : CroppingVolume → PointCloud → PointCloud
  colorCrop : PointCloud → PointCloud
  filterColor : PointCloud → PointCloud
  voxelDownSample : Rat → PointCloud → PointCloud
  estimateNormalsHybrid : Rat → Nat → PointCloud → PointCloud
  orientNormalsTowardsCameraLocation : V3 → PointCloud → PointCloud
  computeFPFHFeature : Rat → Nat → PointCloud → Feature
  estimateNormals_points : ∀ k c, (estimateNormals k c).points = c.points
  normalizeNormals_points : ∀ c, (normalizeNormals c).points = c.points
  voxelize_ne : ∀ v cr c, c.points ≠ [] →
    (voxelizeWithinCroppingVolume v cr c).points ≠ []

/-- A concrete instantiation of the abstracted helpers, used to evaluate
the embedded operations on explicit inputs. -/
def trivialPrims : Prims where
  estimateNormals := fun _ c => c
  normalizeNormals := fun c => c
  voxelizeWithinCroppingVolume := fun _ _ c => c
  getIndicesWithinVolume := fun _ _ => []
  getIdxsOfCarvedPoints := fun _ _ _ _ _ => []
  getKeysOfCarvedPoints := fun _ _ _ _ => []
  selectByIndex := fun c _ => c
  removeByIds := fun _ c => c
  crop := fun _ c => c
  colorCrop := fun c => c
  filterColor := fun c => c
  voxelDownSample := fun _ c => c
  estimateNormalsHybrid := fun _ _ c => c
  orientNormalsTowardsCameraLocation := fun _ c => c
  computeFPFHFeature := fun _ _ _ => []
  estimateNormals_points := fun _ _ => rfl
  normalizeNormals_points := fun _ => rfl
  voxelize_ne := fun _ _ _ h => h

/-- Result of the point-cloud carve: the carved map, the reset timer, and
the mutable debug members `toRemove_` and `scanRef_`. -/
structure CarveResult where
  carvedMap : PointCloud
  timer : Timer
  toRemove : PointCloud
  scanRef : PointCloud
deriving DecidableEq, Repr

/-- `Submap::carve` on a point-cloud target (identical in both revisions):
skip unless the target is non-empty and the carve timer has elapsed
`carveSpaceEveryNsec`; otherwise transform the raw scan to world, find the
carved indices among points inside the cropping volume, remember the
removed points and the scan, remove by index but reset the timer. -/
def carvePointCloud (P : Prims) (rawScan : PointCloud) (mapToRangeSensor : Transform)
    (cropper : CroppingVolume) (params : SpaceCarvingParameters)
    (map : PointCloud) (timer : Timer) (toRemove scanRef : PointCloud)
    (now : Rat) : CarveResult :=
  if map.points = [] ∨ Timer.elapsedSec now timer < params.carveSpaceEveryNsec then
    ⟨map, timer, toRemove, scanRef⟩
  else
    let scan := transformCloud mapToRangeSensor rawScan
    let wideCroppedIdxs := P.getIndicesWithinVolume cropper map
    let idxsToRemove :=
      P.getIdxsOfCarvedPoints scan map mapToRangeSensor.tr wideCroppedIdxs params
    ⟨P.removeByIds idxsToRemove map, Timer.reset now,
     P.selectByIndex map idxsToRemove, scan⟩

/-- `Submap::carve` on a voxelized target (identical in both revisions):
skip unless the target is non-empty and the timer has elapsed
`carveSpaceEveryNsec`; otherwise remove the carved voxel keys and reset
the timer. -/
def carveVoxel (P : Prims) (scan : PointCloud) (sensorPosition : V3)
    (param : SpaceCarvingParameters) (cloud : VoxelizedPointCloud)
    (timer : Timer) (now : Rat) : VoxelizedPointCloud × Timer :=
  if cloud.entries = [] ∨ Timer.elapsedSec now timer < param.carveSpaceEveryNsec then
    (cloud, timer)
  else
    let keysToRemove := P.getKeysOfCarvedPoints scan cloud sensorPosition param
    (keysToRemove.foldl VoxelizedPointCloud.removeKey cloud, Timer.reset now)

/-- `Submap::estimateNormalsIfNeeded` (identical in both revisions). -/
def estimateNormalsIfNeeded (P : Prims) (knn : Nat) (icpObjective : IcpObjective)
    (pcl : PointCloud) : PointCloud :=
  if pcl.HasNormals = false ∧ icpObjective = IcpObjective.PointToPlane then
    P.normalizeNormals (P.estimateNormals knn pcl)
  else pcl

/-- `Submap::voxelizeInsideCroppingVolume` (identical in both revisions). -/
def voxelizeInsideCroppingVolume (P : Prims) (cropper : CroppingVolume)
    (param : MapBuilderParameters) (map : PointCloud) : PointCloud :=
  if param.mapVoxelSize > 0 then
    P.voxelizeWithinCroppingVolume param.mapVoxelSize cropper map
  else map

namespace PartA

/-- The `Submap` state of the part_000 revision: transforms, clouds, dense
and sparse voxel structures, feature descriptors, croppers, timers, and
the mutable debug members `toRemove_` / `scanRef_`. -/
structure Submap where
  id : Nat
  parentId : Nat
  params : MapperParameters
  mapToSubmap : Transform
  mapToRangeSensor : Transform
  submapCenter : V3
  isCenterComputed : Bool
  creationTime : Rat
  mapCloud : PointCloud
  sparseMapCloud : PointCloud
  denseMap : VoxelizedPointCloud
  voxelMap : VoxelMap
  feature : Option Feature
  mapBuilderCropper : CroppingVolume
  denseMapCropper : CroppingVolume
  toRemove : PointCloud
  scanRef : PointCloud
  carvingTimer : Timer
  carveDenseMapTimer : Timer
  featureTimer : Timer
  carvingStatTimer : StatTimer
deriving Repr

/-- The layer name used for the sparse voxel index. -/
def voxelMapLayer : String := "layer"

/-- `Submap::update(p)`: rebuild both croppers, the dense map (at the new
dense voxel size) and the sparse voxel index (at the expanded voxel
size), discarding their contents. -/
def update (p : MapperParameters) (s : Submap) : Submap :=
  { s with
    mapBuilderCropper := croppingVolumeFactory p.mapBuilder.cropper
    denseMapCropper := croppingVolumeFactory p.denseMapBuilder.cropper
    denseMap :=
      VoxelizedPointCloud.fresh (V3.const p.denseMapBuilder.mapVoxelSize)
    voxelMap :=
      VoxelMap.fresh
        (V3.const (voxelExpansionFactorAdjacencyBasedRevisiting *
          p.mapBuilder.mapVoxelSize)) }

/-- `Submap::Submap(id, parentId)`: member default-initialization followed
by `update(params_)`.  The default-constructed `MapperParameters` live
outside the embedded translation units, so the model receives them as the
argument `p`; `now` is the construction instant of the timers. -/
def init (id parentId : Nat) (p : MapperParameters) (now : Rat) : Submap :=
  update p
    { id := id
      parentId := parentId
      params := p
      mapToSubmap := Transform.idT
      mapToRangeSensor := Transform.idT
      submapCenter := V3.zero
      isCenterComputed := false
      creationTime := 0
      mapCloud := PointCloud.emptyPC
      sparseMapCloud := PointCloud.emptyPC
      denseMap := VoxelizedPointCloud.fresh V3.zero
      voxelMap := VoxelMap.fresh V3.zero
      feature := none
      mapBuilderCropper := croppingVolumeFactory p.mapBuilder.cropper
      denseMapCropper := croppingVolumeFactory p.denseMapBuilder.cropper
      toRemove := PointCloud.emptyPC
      scanRef := PointCloud.emptyPC
      carvingTimer := ⟨now⟩
      carveDenseMapTimer := ⟨now⟩
      featureTimer := ⟨now⟩
      carvingStatTimer := ⟨now, now, []⟩ }

/-- `Submap::setParameters(p)`: record the parameters, then `update(p)`. -/
def setParameters (p : MapperParameters) (s : Submap) : Submap :=
  update p { s with params := p }

/-- `Submap::Submap(const Submap&)`: delegate to `Submap(id, parentId)`
(which default-initializes and runs `update` on default parameters `dp`),
then copy `params_`, `mapToSubmap_`, `mapToRangeSensor_`, and run
`update(params_)` again. -/
def copyCtor (dp : MapperParameters) (now : Rat) (other : Submap) : Submap :=
  update other.params
    { init other.id other.parentId dp now with
      params := other.params
      mapToSubmap := other.mapToSubmap
      mapToRangeSensor := other.mapToRangeSensor }

/-- `Submap::insertScan` of the part_000 revision, with the statistics
telemetry of the carving branch included; `now` is the wall-clock instant
of the call. -/
def insertScan (P : Prims) (rawScan preProcessedScan : PointCloud)
    (mapToRangeSensor : Transform) (time : Rat) (isPerformCarving : Bool)
    (now : Rat) (s : Submap) : Bool × Submap :=
  if preProcessedScan.points = [] then
    (true, s)
  else
    let s := if s.mapCloud.points = [] then { s with creationTime := time } else s
    let s := { s with mapToRangeSensor := mapToRangeSensor }
    let transformedCloud := transformCloud mapToRangeSensor preProcessedScan
    let transformedCloud :=
      estimateNormalsIfNeeded P s.params.scanMatcher.kNNnormalEstimation
        s.params.scanMatcher.icpObjective transformedCloud
    let s :=
      if isPerformCarving then
        let s := { s with carvingStatTimer := s.carvingStatTimer.startStopwatch now }
        let r := carvePointCloud P rawScan mapToRangeSensor s.mapBuilderCropper
          s.params.mapBuilder.carving s.mapCloud s.carvingTimer s.toRemove
          s.scanRef now
        let s := { s with mapCloud := r.carvedMap, carvingTimer := r.timer,
                          toRemove := r.toRemove, scanRef := r.scanRef }
        let tm := s.carvingStatTimer.elapsedMsecSinceStopwatchStart now
        let s := { s with carvingStatTimer := s.carvingStatTimer.addMeasurementMsec tm }
        if s.carvingStatTimer.elapsedSec now > 20 then
          { s with carvingStatTimer := s.carvingStatTimer.reset now }
        else s
      else s
    let s := { s with mapCloud := s.mapCloud.append transformedCloud }
    let s := { s with mapBuilderCropper := s.mapBuilderCropper.setPose mapToRangeSensor }
    let s := { s with mapCloud :=
      voxelizeInsideCroppingVolume P s.mapBuilderCropper s.params.mapBuilder s.mapCloud }
    (true, s)

/-- `Submap::insertScanDenseMap` of the part_000 revision: pose the dense
cropper at identity, crop the raw scan, filter by color validity,
transform to world, insert into the dense map, optionally voxel-carve. -/
def insertScanDenseMap (P : Prims) (rawScan : PointCloud)
    (mapToRangeSensor : Transform) (_time : Rat) (isPerformCarving : Bool)
    (now : Rat) (s : Submap) : Bool × Submap :=
  let s := { s with denseMapCropper := s.denseMapCropper.setPose Transform.idT }
  let cropped := P.crop s.denseMapCropper rawScan
  let validColors := P.colorCrop cropped
  let transformedCloud := transformCloud mapToRangeSensor validColors
  let s := { s with denseMap := s.denseMap.insert transformedCloud }
  let s :=
    if isPerformCarving then
      let r := carveVoxel P rawScan mapToRangeSensor.tr
        s.params.denseMapBuilder.carving s.denseMap s.carveDenseMapTimer now
      { s with denseMap := r.1, carveDenseMapTimer := r.2 }
    else s
  (true, s)

/-- `Submap::transform(T)`: apply `T` to the sparse cloud, the map cloud,
the dense map and the submap center; compose the sensor pose with `T`. -/
def transform (T : Transform) (s : Submap) : Submap :=
  { s with
    sparseMapCloud := transformCloud T s.sparseMapCloud
    mapCloud := transformCloud T s.mapCloud
    denseMap := VoxelizedPointCloud.transformV T s.denseMap
    mapToRangeSensor := s.mapToRangeSensor.comp T
    submapCenter := T.apply s.submapCenter }

/-- `Submap::computeFeatures` of the part_000 revision: gated on an
existing feature and the feature timer; otherwise rebuild the sparse voxel
index from the map cloud, recompute the sparse cloud, its normals and the
FPFH descriptors from a snapshot of the map cloud, and reset the timer. -/
def computeFeatures (P : Prims) (now : Rat) (s : Submap) : Submap :=
  if s.feature.isSome = true ∧
      Timer.elapsedSec now s.featureTimer <
        s.params.submaps.minSecondsBetweenFeatureComputation then
    s
  else
    let vm := (s.voxelMap.clear).insertCloud voxelMapLayer s.mapCloud
    let mapCopy := s.mapCloud
    let pr := s.params.placeRecognition
    let sp := P.voxelDownSample pr.featureVoxelSize mapCopy
    let sp := P.estimateNormalsHybrid pr.normalEstimationRadius pr.normalKnn sp
    let sp := P.normalizeNormals sp
    let sp := P.orientNormalsTowardsCameraLocation V3.zero sp
    let f := P.computeFPFHFeature pr.featureRadius pr.featureKnn sp
    { s with voxelMap := vm, sparseMapCloud := sp, feature := some f,
             featureTimer := Timer.reset now }

/-- `Submap::computeSubmapCenter`: centroid of a snapshot of the map
cloud; marks the center computed. -/
def computeSubmapCenter (s : Submap) : Submap :=
  { s with submapCenter := s.mapCloud.getCenter, isCenterComputed := true }

/-- `Submap::getMapToSubmapCenter`. -/
def getMapToSubmapCenter (s : Submap) : V3 :=
  if s.isCenterComputed = true then s.submapCenter else s.mapToSubmap.tr

/-- `Submap::getMapToSubmapOrigin`. -/
def getMapToSubmapOrigin (s : Submap) : Transform := s.mapToSubmap

/-- `Submap::isEmpty`. -/
def isEmptySubmap (s : Submap) : Bool := s.mapCloud.points.isEmpty

end PartA

namespace PartB

/-- The `Submap` state of the part_001 revision (member names `map_`,
`sparseMap_`, `voxelizedCloud_`, plus the `isFirstDenseScan_` flag). -/
structure Submap where
  id : Nat
  parentId : Nat
  params : MapperParameters
  mapToSubmap : Transform
  mapToRangeSensor : Transform
  submapCenter : V3
  isCenterComputed : Bool
  creationTime : Rat
  map : PointCloud
  sparseMap : PointCloud
  voxelizedCloud : VoxelizedPointCloud
  voxelMap : VoxelMap
  feature : Option Feature
  mapBuilderCropper : CroppingVolume
  denseMapCropper : CroppingVolume
  toRemove : PointCloud
  scanRef : PointCloud
  carvingTimer : Timer
  carveDenseMapTimer : Timer
  featureTimer : Timer
  carvingStatTimer : StatTimer
  isFirstDenseScan : Bool
deriving Repr

/-- `Submap::update(p)` of the part_001 revision: rebuild both croppers
(the dense one with a 1.2-expanded radius) and the dense voxelized cloud;
the sparse voxel index is NOT rebuilt by this revision. -/
def update (p : MapperParameters) (s : Submap) : Submap :=
  { s with
    mapBuilderCropper :=
      croppingVolumeFactoryB p.mapBuilder.cropper.cropperName
        p.mapBuilder.cropper.croppingRadius p.mapBuilder.cropper.croppingMinZ
        p.mapBuilder.cropper.croppingMaxZ
    denseMapCropper :=
      croppingVolumeFactoryB p.denseMapBuilder.cropper.cropperName
        ((12 / 10) * p.denseMapBuilder.cropper.croppingRadius)
        p.denseMapBuilder.cropper.croppingMinZ
        p.denseMapBuilder.cropper.croppingMaxZ
    voxelizedCloud :=
      VoxelizedPointCloud.fresh (V3.const p.denseMapBuilder.mapVoxelSize) }

/-- `Submap::Submap(id, parentId)` of the part_001 revision. -/
def init (id parentId : Nat) (p : MapperParameters) (now : Rat) : Submap :=
  update p
    { id := id
      parentId := parentId
      params := p
      mapToSubmap := Transform.idT
      mapToRangeSensor := Transform.idT
      submapCenter := V3.zero
      isCenterComputed := false
      creationTime := 0
      map := PointCloud.emptyPC
      sparseMap := PointCloud.emptyPC
      voxelizedCloud := VoxelizedPointCloud.fresh V3.zero
      voxelMap := VoxelMap.fresh V3.zero
      feature := none
      mapBuilderCropper := croppingVolumeFactoryB "" 0 0 0
      denseMapCropper := croppingVolumeFactoryB "" 0 0 0
      toRemove := PointCloud.emptyPC
      scanRef := PointCloud.emptyPC
      carvingTimer := ⟨now⟩
      carveDenseMapTimer := ⟨now⟩
      featureTimer := ⟨now⟩
      carvingStatTimer := ⟨now, now, []⟩
      isFirstDenseScan := true }

/-- `Submap::setParameters(p)` of the part_001 revision. -/
def setParameters (p : MapperParameters) (s : Submap) : Submap :=
  update p { s with params := p }

/-- `Submap::insertScan` of the part_001 revision: no empty-scan guard —
the creation-time check, the sensor-pose recording, the carving branch,
the append and the bounded voxelization all run unconditionally. -/
def insertScan (P : Prims) (rawScan preProcessedScan : PointCloud)
    (mapToRangeSensor : Transform) (time : Rat) (isPerformCarving : Bool)
    (now : Rat) (s : Submap) : Bool × Submap :=
  let s := if s.map.points = [] then { s with creationTime := time } else s
  let s := { s with mapToRangeSensor := mapToRangeSensor }
  let transformedCloud := transformCloud mapToRangeSensor preProcessedScan
  let transformedCloud :=
    estimateNormalsIfNeeded P s.params.scanMatcher.kNNnormalEstimation
      s.params.scanMatcher.icpObjective transformedCloud
  let s :=
    if isPerformCarving then
      let s := { s with carvingStatTimer := s.carvingStatTimer.startStopwatch now }
      let r := carvePointCloud P rawScan mapToRangeSensor s.mapBuilderCropper
        s.params.mapBuilder.carving s.map s.carvingTimer s.toRemove s.scanRef now
      let s := { s with map := r.carvedMap, carvingTimer := r.timer,
                        toRemove := r.toRemove, scanRef := r.scanRef }
      let tm := s.carvingStatTimer.elapsedMsecSinceStopwatchStart now
      let s := { s with carvingStatTimer := s.carvingStatTimer.addMeasurementMsec tm }
      if s.carvingStatTimer.elapsedSec now > 20 then
        { s with carvingStatTimer := s.carvingStatTimer.reset now }
      else s
    else s
  let s := { s with map := s.map.append transformedCloud }
  let s := { s with mapBuilderCropper := s.mapBuilderCropper.setPose mapToRangeSensor }
  let s := { s with map :=
    voxelizeInsideCroppingVolume P s.mapBuilderCropper s.params.mapBuilder s.map }
  (true, s)

/-- `Submap::insertScanDenseMap` of the part_001 revision: the first call
on a fresh submap clears `isFirstDenseScan_` and returns `false` without
touching the dense map; later calls color-filter, crop, transform, insert
and optionally voxel-carve, returning `true`. -/
def insertScanDenseMap (P : Prims) (rawScan : PointCloud)
    (mapToRangeSensor : Transform) (_time : Rat) (isPerformCarving : Bool)
    (now : Rat) (s : Submap) : Bool × Submap :=
  if s.isFirstDenseScan = true then
    (false, { s with isFirstDenseScan := false })
  else
    let colored := P.filterColor rawScan
    let s := { s with denseMapCropper := s.denseMapCropper.setPose Transform.idT }
    let cropped := P.crop s.denseMapCropper colored
    let transformedCloud := transformCloud mapToRangeSensor cropped
    let s := { s with voxelizedCloud := s.voxelizedCloud.insert transformedCloud }
    let s :=
      if isPerformCarving then
        let r := carveVoxel P rawScan mapToRangeSensor.tr
          s.params.denseMapBuilder.carving s.voxelizedCloud s.carveDenseMapTimer now
        { s with voxelizedCloud := r.1, carveDenseMapTimer := r.2 }
      else s
    (true, s)

/-- `Submap::isEmpty` of the part_001 revision. -/
def isEmptySubmap (s : Submap) : Bool := s.map.points.isEmpty

end PartB

/-- One `insertScan` call of a scan sequence: its arguments plus the
wall-clock instant at which it runs. -/
structure ScanCall where
  rawScan : PointCloud
  preScan : PointCloud
  pose : Transform
  time : Rat
  carve : Bool
  now : Rat

namespace PartA

/-- Run a sequence of `insertScan` calls (part_000 revision), discarding
the returned flags. -/
def runCalls (P : Prims) (s : Submap) : List ScanCall → Submap
  | [] => s
  | c :: cs =>
    runCalls P (insertScan P c.rawScan c.preScan c.pose c.time c.carve c.now s).2 cs

end PartA

/-- Concrete cropper configuration for evaluating the model. -/
def cropper0 : CropperParameters := ⟨"MaxRadius", 10, -2, 2⟩

/-- Concrete carving parameters: carve at most once per second. -/
def carving0 : SpaceCarvingParameters := ⟨20, 1, 1, 0, 1⟩

/-- Concrete map-builder parameters with voxelization disabled. -/
def mapBuilder0 : MapBuilderParameters := ⟨0, cropper0, carving0⟩

/-- Concrete mapper parameters for evaluating the model. -/
def params0 : MapperParameters :=
  ⟨mapBuilder0, mapBuilder0, ⟨5, IcpObjective.PointToPoint⟩, ⟨0, 1, 10, 1, 100⟩, ⟨1⟩⟩

/-- A one-point cloud. -/
def oneP : PointCloud := ⟨[⟨1, 2, 3⟩], [], []⟩

/-- Translation by (1, 0, 0). -/
def trX : Transform := ⟨Mat3.one, ⟨1, 0, 0⟩⟩

/-- Translation by (-1, 0, 0), the inverse of `trX`. -/
def trXinv : Transform := ⟨Mat3.one, ⟨-1, 0, 0⟩⟩

/-- A concrete populated part_000 submap state (empty dense-map bucket
list, non-empty map cloud, feature already computed). -/
def sampleA : PartA.Submap :=
  { PartA.init 3 1 params0 0 with
    mapCloud := oneP
    sparseMapCloud := oneP
    submapCenter := ⟨1, 2, 3⟩
    feature := some [[1, 2]] }

/-- A fresh part_001 submap state. -/
def sampleB : PartB.Submap := PartB.init 0 0 params0 0

/-- A part_001 submap state carrying a non-empty sparse voxel index. -/
def sampleBvox : PartB.Submap :=
  { sampleB with voxelMap := ⟨V3.const 1, [("layer", [((0, 0, 0), 0)])]⟩ }

/-! ## Algebraic lemmas about the geometric primitives -/

theorem Mat3.mul_assoc (A B C : Mat3) :
    Mat3.mul (Mat3.mul A B) C = Mat3.mul A (Mat3.mul B C) := by
  cases A; cases B; cases C
  simp only [Mat3.mul, Mat3.mk.injEq]
  refine ⟨?_, ?_, ?_, ?_, ?_, ?_, ?_, ?_, ?_⟩ <;> ring

theorem Mat3.mul_one (A : Mat3) : Mat3.mul A Mat3.one = A := by
  cases A; simp only [Mat3.mul, Mat3.one]; norm_num

theorem Mat3.mulVec_mul (A B : Mat3) (v : V3) :
    Mat3.mulVec (Mat3.mul A B) v = Mat3.mulVec A (Mat3.mulVec B v) := by
  cases A; cases B; cases v
  simp only [Mat3.mul, Mat3.mulVec, V3.mk.injEq]
  refine ⟨?_, ?_, ?_⟩ <;> ring

theorem Mat3.one_mulVec (v : V3) : Mat3.mulVec Mat3.one v = v := by
  cases v; simp only [Mat3.mulVec, Mat3.one]; norm_num

theorem Transform.apply_comp (A B : Transform) (p : V3) :
    (Transform.comp A B).apply p = A.apply (B.apply p) := by
  cases A; cases B; cases p
  simp only [Transform.comp, Transform.apply, Mat3.mulVec_mul]
  simp only [Mat3.mulVec, V3.add, V3.mk.injEq]
  refine ⟨?_, ?_, ?_⟩ <;> ring

theorem Transform.comp_assoc (A B C : Transform) :
    Transform.comp (Transform.comp A B) C = Transform.comp A (Transform.comp B C) := by
  cases A; cases B; cases C
  simp only [Transform.comp, Transform.mk.injEq, Mat3.mul_assoc, Mat3.mulVec_mul,
    true_and]
  simp only [Mat3.mulVec, V3.add, V3.mk.injEq]
  refine ⟨?_, ?_, ?_⟩ <;> ring

theorem Transform.comp_idT (A : Transform) : Transform.comp A Transform.idT = A := by
  cases A
  simp only [Transform.comp, Transform.idT, Mat3.mul_one, Transform.mk.injEq, true_and]
  simp only [Mat3.mulVec, V3.zero, V3.add]
  norm_num

theorem Transform.idT_apply (p : V3) : Transform.idT.apply p = p := by
  cases p
  simp only [Transform.apply, Transform.idT, Mat3.one_mulVec, V3.add, V3.zero]
  norm_num

theorem Transform.apply_apply_of_comp_eq_id {T Tinv : Transform}
    (h : Transform.comp Tinv T = Transform.idT) (p : V3) :
    Tinv.apply (T.apply p) = p := by
  rw [← Transform.apply_comp, h, Transform.idT_apply]

theorem transformCloud_roundtrip {T Tinv : Transform}
    (h : Transform.comp Tinv T = Transform.idT) (c : PointCloud) :
    transformCloud Tinv (transformCloud T c) = c := by
  have hlin : Mat3.mul Tinv.lin T.lin = Mat3.one := congrArg Transform.lin h
  cases c with
  | mk ps ns cs =>
    simp only [transformCloud, List.map_map, PointCloud.mk.injEq]
    refine ⟨?_, ?_, trivial⟩
    · have hp : ∀ p : V3, (Tinv.apply ∘ T.apply) p = p := fun p =>
        Transform.apply_apply_of_comp_eq_id h p
      rw [List.map_congr_left fun a _ => hp a, List.map_id']
    · have hn : ∀ n : V3, (Tinv.lin.mulVec ∘ T.lin.mulVec) n = n := fun n => by
        simp only [Function.comp_apply, ← Mat3.mulVec_mul, hlin, Mat3.one_mulVec]
      rw [List.map_congr_left fun a _ => hn a, List.map_id']

theorem transformV_roundtrip {T Tinv : Transform}
    (h : Transform.comp Tinv T = Transform.idT) (c : VoxelizedPointCloud)
    (hkeys : ∀ e ∈ c.entries, e.key = keyOf c.voxelSize e.pos) :
    VoxelizedPointCloud.transformV Tinv (VoxelizedPointCloud.transformV T c) = c := by
  cases c with
  | mk vs es =>
    simp only [VoxelizedPointCloud.transformV, List.map_map,
      VoxelizedPointCloud.mk.injEq, true_and]
    have he : ∀ e ∈ es,
        ((fun e : VoxelEntry =>
            (⟨keyOf vs (Tinv.apply e.pos), Tinv.apply e.pos, e.count⟩ : VoxelEntry)) ∘
          (fun e : VoxelEntry =>
            (⟨keyOf vs (T.apply e.pos), T.apply e.pos, e.count⟩ : VoxelEntry))) e = e := by
      intro e he
      simp only [Function.comp_apply, Transform.apply_apply_of_comp_eq_id h]
      exact (VoxelEntry.mk.injEq _ _ _ _ _ _).mpr ⟨(hkeys e he).symm, rfl, rfl⟩
    rw [List.map_congr_left he, List.map_id']

/-! ## Lemmas about the embedded submap operations -/

theorem estimateNormalsIfNeeded_points (P : Prims) (k : Nat) (o : IcpObjective)
    (c : PointCloud) : (estimateNormalsIfNeeded P k o c).points = c.points := by
  unfold estimateNormalsIfNeeded
  split
  · rw [P.normalizeNormals_points, P.estimateNormals_points]
  · rfl

theorem voxelizeInsideCroppingVolume_ne (P : Prims) (cr : CroppingVolume)
    (pm : MapBuilderParameters) (c : PointCloud) (h : c.points ≠ []) :
    (voxelizeInsideCroppingVolume P cr pm c).points ≠ [] := by
  unfold voxelizeInsideCroppingVolume
  split
  · exact P.voxelize_ne _ _ _ h
  · exact h

theorem PartA.insertScan_empty (P : Prims) (raw pre : PointCloud)
    (pose : Transform) (time : Rat) (cv : Bool) (now : Rat) (s : PartA.Submap)
    (h : pre.points = []) :
    PartA.insertScan P raw pre pose time cv now s = (true, s) := by
  unfold PartA.insertScan
  rw [if_pos h]

theorem PartA.insertScan_fst (P : Prims) (raw pre : PointCloud)
    (pose : Transform) (time : Rat) (cv : Bool) (now : Rat) (s : PartA.Submap) :
    (PartA.insertScan P raw pre pose time cv now s).1 = true := by
  unfold PartA.insertScan
  split <;> rfl

theorem PartA.insertScan_creationTime (P : Prims) (raw pre : PointCloud)
    (pose : Transform) (time : Rat) (cv : Bool) (now : Rat) (s : PartA.Submap)
    (h : pre.points ≠ []) :
    (PartA.insertScan P raw pre pose time cv now s).2.creationTime =
      (if s.mapCloud.points = [] then time else s.creationTime) := by
  simp only [PartA.insertScan, if_neg h]
  split <;> (try split) <;> (try split) <;> rfl

theorem PartA.insertScan_mapCloud_ne (P : Prims) (raw pre : PointCloud)
    (pose : Transform) (time : Rat) (cv : Bool) (now : Rat) (s : PartA.Submap)
    (h : pre.points ≠ []) :
    (PartA.insertScan P raw pre pose time cv now s).2.mapCloud.points ≠ [] := by
  simp only [PartA.insertScan, if_neg h]
  have hne : ∀ (mc : PointCloud),
      (mc.append (estimateNormalsIfNeeded P s.params.scanMatcher.kNNnormalEstimation
        s.params.scanMatcher.icpObjective (transformCloud pose pre))).points ≠ [] := by
    intro mc
    simp only [PointCloud.append, ne_eq, List.append_eq_nil, not_and]
    intro _
    rw [estimateNormalsIfNeeded_points]
    simp only [transformCloud, List.map_eq_nil_iff]
    exact h
  split <;> (try split) <;> (try split) <;>
    exact voxelizeInsideCroppingVolume_ne P _ _ _ (hne _)

theorem PartA.insertScan_preserve (P : Prims) (raw pre : PointCloud)
    (pose : Transform) (time : Rat) (cv : Bool) (now : Rat) (s : PartA.Submap)
    (h : s.mapCloud.points ≠ []) :
    (PartA.insertScan P raw pre pose time cv now s).2.creationTime =
      s.creationTime ∧
    (PartA.insertScan P raw pre pose time cv now s).2.mapCloud.points ≠ [] := by
  by_cases hp : pre.points = []
  · rw [PartA.insertScan_empty P raw pre pose time cv now s hp]
    exact ⟨rfl, h⟩
  · refine ⟨?_, PartA.insertScan_mapCloud_ne P raw pre pose time cv now s hp⟩
    rw [PartA.insertScan_creationTime P raw pre pose time cv now s hp, if_neg h]

theorem PartA.runCalls_preserve (P : Prims) (cs : List ScanCall)
    (s : PartA.Submap) (h : s.mapCloud.points ≠ []) :
    (PartA.runCalls P s cs).creationTime = s.creationTime ∧
    (PartA.runCalls P s cs).mapCloud.points ≠ [] := by
  induction cs generalizing s with
  | nil => exact ⟨rfl, h⟩
  | cons c cs ih =>
    have step := PartA.insertScan_preserve P c.rawScan c.preScan c.pose c.time
      c.carve c.now s h
    have rest :=
      ih (PartA.insertScan P c.rawScan c.preScan c.pose c.time c.carve c.now s).2
        step.2
    exact ⟨by rw [PartA.runCalls, rest.1, step.1], by rw [PartA.runCalls]; exact rest.2⟩

theorem PartA.runCalls_noop (P : Prims) (cs : List ScanCall) (s : PartA.Submap)
    (h : ∀ c ∈ cs, c.preScan.points = []) :
    PartA.runCalls P s cs = s := by
  induction cs with
  | nil => rfl
  | cons c cs ih =>
    rw [PartA.runCalls,
      PartA.insertScan_empty P c.rawScan c.preScan c.pose c.time c.carve c.now s
        (h c (List.mem_cons_self c cs))]
    exact ih fun d hd => h d (List.mem_cons_of_mem c hd)

theorem PartA.runCalls_append (P : Prims) (as bs : List ScanCall)
    (s : PartA.Submap) :
    PartA.runCalls P s (as ++ bs) = PartA.runCalls P (PartA.runCalls P s as) bs := by
  induction as generalizing s with
  | nil => rfl
  | cons a as ih => rw [List.cons_append, PartA.runCalls, PartA.runCalls, ih]

theorem PartB.insertScan_fields (P : Prims) (raw pre : PointCloud)
    (pose : Transform) (time : Rat) (cv : Bool) (now : Rat) (s : PartB.Submap) :
    (PartB.insertScan P raw pre pose time cv now s).1 = true ∧
    (PartB.insertScan P raw pre pose time cv now s).2.mapToRangeSensor = pose ∧
    (PartB.insertScan P raw pre pose time cv now s).2.creationTime =
      (if s.map.points = [] then time else s.creationTime) := by
  simp only [PartB.insertScan]
  refine ⟨trivial, ?_, ?_⟩ <;> (split <;> (try split) <;> (try split) <;> rfl)

/-! ## Claim theorems -/

/-- Claim C4: for every submap state (with the dense-map key invariant the
spec asserts for its buckets) and every rigid transform `T` with two-sided
inverse `Tinv`, `transform(T)` followed by `transform(Tinv)` restores
`mapCloud`, `sparseMapCloud`, `denseMap` and `submapCenter`, and restores
`mapToRangeSensor` exactly, since `(M*T)*T⁻¹ = M`; over the exact rational
model the whole state is restored exactly. -/
theorem C4_transform_roundtrip (s : PartA.Submap) (T Tinv : Transform)
    (h1 : Transform.comp T Tinv = Transform.idT)
    (h2 : Transform.comp Tinv T = Transform.idT)
    (hkeys : ∀ e ∈ s.denseMap.entries, e.key = keyOf s.denseMap.voxelSize e.pos) :
    PartA.transform Tinv (PartA.transform T s) = s := by
  cases s with
  | mk i pid prm m2s m2rs ctr icc ct mc smc dm vm f mbc dmc trm scr cvt cdt ft cst =>
    simp only [PartA.transform, PartA.Submap.mk.injEq, true_and, and_true]
    refine ⟨?_, ?_, ?_, ?_, ?_⟩ <;>
      first
        | rw [Transform.comp_assoc, h1, Transform.comp_idT]
        | exact Transform.apply_apply_of_comp_eq_id h2 ctr
        | exact transformCloud_roundtrip h2 mc
        | exact transformCloud_roundtrip h2 smc
        | exact transformV_roundtrip h2 dm hkeys

/-- Witness for C4 at a populated concrete state and the translation by
(1,0,0) with its inverse. -/
theorem C4_transform_roundtrip_witness :
    PartA.transform trXinv (PartA.transform trX sampleA) = sampleA :=
  C4_transform_roundtrip sampleA trX trXinv
    (by
      simp only [trX, trXinv, Transform.comp, Transform.idT, Mat3.mul, Mat3.one,
        Mat3.mulVec, V3.add, V3.zero, Transform.mk.injEq, Mat3.mk.injEq, V3.mk.injEq]
      norm_num)
    (by
      simp only [trX, trXinv, Transform.comp, Transform.idT, Mat3.mul, Mat3.one,
        Mat3.mulVec, V3.add, V3.zero, Transform.mk.injEq, Mat3.mk.injEq, V3.mk.injEq]
      norm_num)
    (by intro e he; exact absurd he (List.not_mem_nil e))

/-- Claim C5: a carve call (point-cloud or voxel target) is a no-op on the
target, the timer and the debug members unless the target is non-empty and
the carving timer has elapsed `carveSpaceEveryNsec`; and a second
point-cloud carve issued within `carveSpaceEveryNsec` of a successful one
returns the first call's result unchanged (the map bit-identical). -/
theorem C5_carve_gating (P : Prims) (raw : PointCloud) (pose : Transform)
    (cropper : CroppingVolume) (prm : SpaceCarvingParameters) (map : PointCloud)
    (timer : Timer) (tr sr : PointCloud) (scan : PointCloud) (spos : V3)
    (vcloud : VoxelizedPointCloud) (vtimer : Timer)
    (raw2 : PointCloud) (pose2 : Transform) (cropper2 : CroppingVolume)
    (now now1 now2 : Rat) :
    (¬(map.points ≠ [] ∧ Timer.elapsedSec now timer ≥ prm.carveSpaceEveryNsec) →
      carvePointCloud P raw pose cropper prm map timer tr sr now =
        ⟨map, timer, tr, sr⟩) ∧
    (¬(vcloud.entries ≠ [] ∧ Timer.elapsedSec now vtimer ≥ prm.carveSpaceEveryNsec) →
      carveVoxel P scan spos prm vcloud vtimer now = (vcloud, vtimer)) ∧
    (map.points ≠ [] → Timer.elapsedSec now1 timer ≥ prm.carveSpaceEveryNsec →
      now2 - now1 < prm.carveSpaceEveryNsec →
      carvePointCloud P raw2 pose2 cropper2 prm
          (carvePointCloud P raw pose cropper prm map timer tr sr now1).carvedMap
          (carvePointCloud P raw pose cropper prm map timer tr sr now1).timer
          (carvePointCloud P raw pose cropper prm map timer tr sr now1).toRemove
          (carvePointCloud P raw pose cropper prm map timer tr sr now1).scanRef
          now2 =
        carvePointCloud P raw pose cropper prm map timer tr sr now1) := by
  refine ⟨?_, ?_, ?_⟩
  · intro hno
    unfold carvePointCloud
    rw [if_pos]
    rcases not_and_or.mp hno with hm | ht
    · exact Or.inl (not_not.mp hm)
    · exact Or.inr (lt_of_not_ge ht)
  · intro hno
    unfold carveVoxel
    rw [if_pos]
    rcases not_and_or.mp hno with hm | ht
    · exact Or.inl (not_not.mp hm)
    · exact Or.inr (lt_of_not_ge ht)
  · intro hm h1 h2
    have hfirst : carvePointCloud P raw pose cropper prm map timer tr sr now1 =
        ⟨P.removeByIds
            (P.getIdxsOfCarvedPoints (transformCloud pose raw) map pose.tr
              (P.getIndicesWithinVolume cropper map) prm) map,
          Timer.reset now1,
          P.selectByIndex map
            (P.getIdxsOfCarvedPoints (transformCloud pose raw) map pose.tr
              (P.getIndicesWithinVolume cropper map) prm),
          transformCloud pose raw⟩ := by
      unfold carvePointCloud
      rw [if_neg]
      intro hor
      rcases hor with hm2 | ht2
      · exact hm hm2
      · exact absurd h1 (not_le.mpr ht2)
    rw [hfirst]
    unfold carvePointCloud
    rw [if_pos (Or.inr (by simpa [Timer.elapsedSec, Timer.reset] using h2))]

/-- Witness for C5: a too-early point-cloud carve, a voxel carve on an
empty grid, and a second carve half a second after a successful one at
`carveSpaceEveryNsec = 1`. -/
theorem C5_carve_gating_witness :
    (carvePointCloud trivialPrims oneP Transform.idT
        (croppingVolumeFactory cropper0) carving0 oneP ⟨0⟩ PointCloud.emptyPC
        PointCloud.emptyPC 0 =
      ⟨oneP, ⟨0⟩, PointCloud.emptyPC, PointCloud.emptyPC⟩) ∧
    (carveVoxel trivialPrims oneP V3.zero carving0
        (VoxelizedPointCloud.fresh (V3.const 1)) ⟨0⟩ 0 =
      (VoxelizedPointCloud.fresh (V3.const 1), ⟨0⟩)) ∧
    (carvePointCloud trivialPrims oneP Transform.idT
        (croppingVolumeFactory cropper0) carving0
        (carvePointCloud trivialPrims oneP Transform.idT
          (croppingVolumeFactory cropper0) carving0 oneP ⟨0⟩ PointCloud.emptyPC
          PointCloud.emptyPC 1).carvedMap
        (carvePointCloud trivialPrims oneP Transform.idT
          (croppingVolumeFactory cropper0) carving0 oneP ⟨0⟩ PointCloud.emptyPC
          PointCloud.emptyPC 1).timer
        (carvePointCloud trivialPrims oneP Transform.idT
          (croppingVolumeFactory cropper0) carving0 oneP ⟨0⟩ PointCloud.emptyPC
          PointCloud.emptyPC 1).toRemove
        (carvePointCloud trivialPrims oneP Transform.idT
          (croppingVolumeFactory cropper0) carving0 oneP ⟨0⟩ PointCloud.emptyPC
          PointCloud.emptyPC 1).scanRef
        (3 / 2) =
      carvePointCloud trivialPrims oneP Transform.idT
        (croppingVolumeFactory cropper0) carving0 oneP ⟨0⟩ PointCloud.emptyPC
        PointCloud.emptyPC 1) := by
  have h := C5_carve_gating trivialPrims oneP Transform.idT
    (croppingVolumeFactory cropper0) carving0 oneP ⟨0⟩ PointCloud.emptyPC
    PointCloud.emptyPC oneP V3.zero (VoxelizedPointCloud.fresh (V3.const 1)) ⟨0⟩
    oneP Transform.idT (croppingVolumeFactory cropper0) 0 1 (3 / 2)
  refine ⟨h.1 ?_, h.2.1 ?_, h.2.2 ?_ ?_ ?_⟩
  · intro hc
    exact absurd hc.2 (by norm_num [Timer.elapsedSec, carving0])
  · intro hc
    exact absurd hc.1 (by norm_num [VoxelizedPointCloud.fresh])
  · simp [oneP]
  · norm_num [Timer.elapsedSec, carving0]
  · norm_num [carving0]

/-- Claim C7: once `computeFeatures` has completed (a feature is present),
a second call issued before `minSecondsBetweenFeatureComputation` has
elapsed on the feature timer returns without changing any state. -/
theorem C7_computeFeatures_gated (P : Prims) (now : Rat) (s : PartA.Submap)
    (hf : s.feature.isSome = true)
    (ht : Timer.elapsedSec now s.featureTimer <
      s.params.submaps.minSecondsBetweenFeatureComputation) :
    PartA.computeFeatures P now s = s := by
  unfold PartA.computeFeatures
  rw [if_pos ⟨hf, ht⟩]

/-- Witness for C7 at a concrete state whose feature is computed, with the
timer freshly reset and the gate at one second. -/
theorem C7_computeFeatures_gated_witness :
    PartA.computeFeatures trivialPrims 0 sampleA = sampleA :=
  C7_computeFeatures_gated trivialPrims 0 sampleA rfl
    (by norm_num [Timer.elapsedSec, sampleA, PartA.init, PartA.update, params0])

/-- Claim C8: `computeSubmapCenter(); transform(T)` makes
`getMapToSubmapCenter()` return `T` applied to the pre-transform centroid
of the map cloud. -/
theorem C8_center_after_transform (s : PartA.Submap) (T : Transform) :
    PartA.getMapToSubmapCenter (PartA.transform T (PartA.computeSubmapCenter s)) =
      T.apply s.mapCloud.getCenter :=
  rfl

/-- Claim C9: `transform(T)` leaves `id`, `parentId`, the parameters,
`mapToSubmap` (hence `getMapToSubmapOrigin`), `creationTime`, the feature
descriptors, `voxelMap`, the croppers, the timers and the debug members
unchanged: it mutates only the clouds, `mapToRangeSensor` and
`submapCenter`. -/
theorem C9_transform_touches_only_geometry (s : PartA.Submap) (T : Transform) :
    (PartA.transform T s).id = s.id ∧
    (PartA.transform T s).parentId = s.parentId ∧
    (PartA.transform T s).params = s.params ∧
    (PartA.transform T s).mapToSubmap = s.mapToSubmap ∧
    PartA.getMapToSubmapOrigin (PartA.transform T s) =
      PartA.getMapToSubmapOrigin s ∧
    (PartA.transform T s).creationTime = s.creationTime ∧
    (PartA.transform T s).feature = s.feature ∧
    (PartA.transform T s).voxelMap = s.voxelMap ∧
    (PartA.transform T s).isCenterComputed = s.isCenterComputed ∧
    (PartA.transform T s).mapBuilderCropper = s.mapBuilderCropper ∧
    (PartA.transform T s).denseMapCropper = s.denseMapCropper ∧
    (PartA.transform T s).toRemove = s.toRemove ∧
    (PartA.transform T s).scanRef = s.scanRef ∧
    (PartA.transform T s).carvingTimer = s.carvingTimer ∧
    (PartA.transform T s).carveDenseMapTimer = s.carveDenseMapTimer ∧
    (PartA.transform T s).featureTimer = s.featureTimer ∧
    (PartA.transform T s).carvingStatTimer = s.carvingStatTimer :=
  ⟨rfl, rfl, rfl, rfl, rfl, rfl, rfl, rfl, rfl, rfl, rfl, rfl, rfl, rfl, rfl,
   rfl, rfl⟩

/-- Claim C10: the copy constructor copies only `id`, `parentId`, the
parameters, `mapToSubmap` and `mapToRangeSensor`, and rebuilds all map
containers in their freshly-initialized empty/absent state. -/
theorem C10_copy_ctor_resets_containers (dp : MapperParameters) (now : Rat)
    (other : PartA.Submap) :
    (PartA.copyCtor dp now other).id = other.id ∧
    (PartA.copyCtor dp now other).parentId = other.parentId ∧
    (PartA.copyCtor dp now other).params = other.params ∧
    (PartA.copyCtor dp now other).mapToSubmap = other.mapToSubmap ∧
    (PartA.copyCtor dp now other).mapToRangeSensor = other.mapToRangeSensor ∧
    PartA.isEmptySubmap (PartA.copyCtor dp now other) = true ∧
    (PartA.copyCtor dp now other).mapCloud = PointCloud.emptyPC ∧
    (PartA.copyCtor dp now other).sparseMapCloud = PointCloud.emptyPC ∧
    (PartA.copyCtor dp now other).feature = none ∧
    (PartA.copyCtor dp now other).denseMap =
      VoxelizedPointCloud.fresh
        (V3.const other.params.denseMapBuilder.mapVoxelSize) ∧
    (PartA.copyCtor dp now other).voxelMap =
      VoxelMap.fresh
        (V3.const (voxelExpansionFactorAdjacencyBasedRevisiting *
          other.params.mapBuilder.mapVoxelSize)) ∧
    (PartA.copyCtor dp now other).creationTime = 0 ∧
    (PartA.copyCtor dp now other).submapCenter = V3.zero ∧
    (PartA.copyCtor dp now other).isCenterComputed = false ∧
    (PartA.copyCtor dp now other).toRemove = PointCloud.emptyPC ∧
    (PartA.copyCtor dp now other).scanRef = PointCloud.emptyPC ∧
    (PartA.copyCtor dp now other).mapBuilderCropper =
      croppingVolumeFactory other.params.mapBuilder.cropper ∧
    (PartA.copyCtor dp now other).denseMapCropper =
      croppingVolumeFactory other.params.denseMapBuilder.cropper :=
  ⟨rfl, rfl, rfl, rfl, rfl, rfl, rfl, rfl, rfl, rfl, rfl, rfl, rfl, rfl, rfl,
   rfl, rfl, rfl⟩

/-- Counterexample to claim C1: in the part_001 revision an `insertScan`
with an empty `preProcessedScan` still overwrites `mapToRangeSensor` (the
call returns `true` but the state is not unchanged). -/
theorem C1_counterexample :
    (PartB.insertScan trivialPrims PointCloud.emptyPC PointCloud.emptyPC trX 7
        false 0 sampleB).2.mapToRangeSensor ≠ sampleB.mapToRangeSensor := by
  decide

/-- Claim C1 (amended): an `insertScan` on an empty `preProcessedScan`
returns `true` and leaves the whole state unchanged in the part_000
revision; in the part_001 revision it returns `true` but records
`mapToRangeSensor` and, when the map cloud is empty, assigns
`creationTime`. -/
theorem C1_empty_scan_insert (P : Prims) (raw pre : PointCloud)
    (pose : Transform) (time : Rat) (cv : Bool) (now : Rat)
    (sA : PartA.Submap) (sB : PartB.Submap) (h : pre.points = []) :
    PartA.insertScan P raw pre pose time cv now sA = (true, sA) ∧
    ((PartB.insertScan P raw pre pose time cv now sB).1 = true ∧
     (PartB.insertScan P raw pre pose time cv now sB).2.mapToRangeSensor = pose ∧
     (PartB.insertScan P raw pre pose time cv now sB).2.creationTime =
       (if sB.map.points = [] then time else sB.creationTime)) :=
  ⟨PartA.insertScan_empty P raw pre pose time cv now sA h,
   PartB.insertScan_fields P raw pre pose time cv now sB⟩

/-- Witness for C1 at a concrete empty scan on both revisions. -/
theorem C1_empty_scan_insert_witness :
    PartA.insertScan trivialPrims oneP PointCloud.emptyPC trX 7 false 0 sampleA =
      (true, sampleA) ∧
    (PartB.insertScan trivialPrims oneP PointCloud.emptyPC trX 7 false 0
        sampleB).2.mapToRangeSensor = trX :=
  ⟨(C1_empty_scan_insert trivialPrims oneP PointCloud.emptyPC trX 7 false 0
      sampleA sampleB rfl).1,
   (C1_empty_scan_insert trivialPrims oneP PointCloud.emptyPC trX 7 false 0
      sampleA sampleB rfl).2.2.1⟩

/-- Counterexample to claim C2: in the part_001 revision, `insertScan`
calls with empty scans assign `creationTime` whenever the map cloud is
empty — here it is assigned twice, at times 1 and 2, by two empty-scan
calls on a fresh submap. -/
theorem C2_counterexample :
    (PartB.insertScan trivialPrims PointCloud.emptyPC PointCloud.emptyPC
        Transform.idT 1 false 0 sampleB).2.creationTime = 1 ∧
    (PartB.insertScan trivialPrims PointCloud.emptyPC PointCloud.emptyPC
        Transform.idT 2 false 0
        (PartB.insertScan trivialPrims PointCloud.emptyPC PointCloud.emptyPC
          Transform.idT 1 false 0 sampleB).2).2.creationTime = 2 :=
  ⟨rfl, rfl⟩

/-- Claim C2 (amended): on the part_000 revision, for every sequence of
`insertScan` calls on a fresh submap, empty-scan prefixes leave the state
untouched and `creationTime` is assigned exactly once, by the first call
with a non-empty `preProcessedScan`, and is never changed afterwards; on
the part_001 revision an empty-scan call on an empty map cloud also
assigns `creationTime`. -/
theorem C2_creation_time_once (P : Prims) (idn pid : Nat)
    (p : MapperParameters) (now : Rat) :
    (∀ as : List ScanCall, (∀ c ∈ as, c.preScan.points = []) →
      PartA.runCalls P (PartA.init idn pid p now) as = PartA.init idn pid p now) ∧
    (∀ (as : List ScanCall) (c : ScanCall) (bs : List ScanCall),
      (∀ a ∈ as, a.preScan.points = []) → c.preScan.points ≠ [] →
      (PartA.runCalls P (PartA.init idn pid p now) (as ++ c :: bs)).creationTime =
        c.time) ∧
    (∀ (raw pre : PointCloud) (pose : Transform) (time : Rat) (cv : Bool)
        (now2 : Rat) (sB : PartB.Submap), sB.map.points = [] →
      (PartB.insertScan P raw pre pose time cv now2 sB).2.creationTime = time) := by
  refine ⟨fun as hemp => PartA.runCalls_noop P as _ hemp, ?_, ?_⟩
  · intro as c bs hemp hc
    rw [PartA.runCalls_append, PartA.runCalls_noop P as _ hemp, PartA.runCalls]
    have hinit : (PartA.init idn pid p now).mapCloud.points = [] := rfl
    have hct := PartA.insertScan_creationTime P c.rawScan c.preScan c.pose c.time
      c.carve c.now (PartA.init idn pid p now) hc
    rw [hinit] at hct
    have hne := PartA.insertScan_mapCloud_ne P c.rawScan c.preScan c.pose c.time
      c.carve c.now (PartA.init idn pid p now) hc
    have hrest := PartA.runCalls_preserve P bs
      (PartA.insertScan P c.rawScan c.preScan c.pose c.time c.carve c.now
        (PartA.init idn pid p now)).2 hne
    rw [hrest.1, hct, if_pos rfl]
  · intro raw pre pose time cv now2 sB hm
    have := (PartB.insertScan_fields P raw pre pose time cv now2 sB).2.2
    rw [this, if_pos hm]

/-- Witness for C2: an empty-scan call followed by a one-point scan at
time 9 and an empty tail; the resulting creation time is 9, and the
part_001 clause at a fresh submap with an empty scan at time 4. -/
theorem C2_creation_time_once_witness :
    (PartA.runCalls trivialPrims (PartA.init 0 0 params0 0)
        [⟨PointCloud.emptyPC, PointCloud.emptyPC, Transform.idT, 4, false, 0⟩,
         ⟨oneP, oneP, Transform.idT, 9, false, 0⟩]).creationTime = 9 ∧
    (PartB.insertScan trivialPrims PointCloud.emptyPC PointCloud.emptyPC
        Transform.idT 4 false 0 sampleB).2.creationTime = 4 := by
  have h := C2_creation_time_once trivialPrims 0 0 params0 0
  refine ⟨?_, h.2.2 PointCloud.emptyPC PointCloud.emptyPC Transform.idT 4 false 0
    sampleB rfl⟩
  have h2 := h.2.1
    [⟨PointCloud.emptyPC, PointCloud.emptyPC, Transform.idT, 4, false, 0⟩]
    ⟨oneP, oneP, Transform.idT, 9, false, 0⟩ []
    (by intro a ha; rw [List.mem_singleton] at ha; subst ha; rfl)
    (by simp [oneP])
  exact h2

/-- Counterexample to claim C3: in the part_001 revision, the first
`insertScanDenseMap` on a fresh submap returns `false`. -/
theorem C3_counterexample :
    (PartB.insertScanDenseMap trivialPrims oneP Transform.idT 0 false 0
        sampleB).1 = false :=
  rfl

/-- Claim C3 (amended): `insertScanDenseMap` always returns `true` in the
part_000 revision (crop at identity pose, color filter, transform, dense
insert, optional timer-gated carve); in the part_001 revision every call
except the first returns `true`, while the first call on a fresh submap
only clears the first-scan flag and returns `false`. -/
theorem C3_dense_insert_returns (P : Prims) (raw : PointCloud)
    (pose : Transform) (time : Rat) (cv : Bool) (now : Rat)
    (sA : PartA.Submap) (sB : PartB.Submap) :
    (PartA.insertScanDenseMap P raw pose time cv now sA).1 = true ∧
    (sB.isFirstDenseScan = false →
      (PartB.insertScanDenseMap P raw pose time cv now sB).1 = true) ∧
    (sB.isFirstDenseScan = true →
      PartB.insertScanDenseMap P raw pose time cv now sB =
        (false, { sB with isFirstDenseScan := false })) := by
  refine ⟨rfl, fun hb => ?_, fun hb => ?_⟩
  · unfold PartB.insertScanDenseMap
    rw [if_neg (by rw [hb]; exact Bool.false_ne_true)]
  · unfold PartB.insertScanDenseMap
    rw [if_pos hb]

/-- Witness for C3: both part_001 branches at concrete states. -/
theorem C3_dense_insert_returns_witness :
    (PartB.insertScanDenseMap trivialPrims oneP Transform.idT 0 false 0
        { sampleB with isFirstDenseScan := false }).1 = true ∧
    PartB.insertScanDenseMap trivialPrims oneP Transform.idT 0 false 0 sampleB =
      (false, { sampleB with isFirstDenseScan := false }) :=
  ⟨(C3_dense_insert_returns trivialPrims oneP Transform.idT 0 false 0 sampleA
      { sampleB with isFirstDenseScan := false }).2.1 rfl,
   (C3_dense_insert_returns trivialPrims oneP Transform.idT 0 false 0 sampleA
      sampleB).2.2 rfl⟩

/-- Counterexample to claim C6: in the part_001 revision `setParameters`
does not rebuild the sparse voxel index — a non-empty `voxelMap` survives
the call, so "both denseMap and voxelMap are rebuilt empty" fails. -/
theorem C6_counterexample :
    (PartB.setParameters params0 sampleBvox).voxelMap.layers ≠ [] := by
  decide

/-- Claim C6 (amended): after `setParameters(p)`, both revisions rebuild
the dense map empty at the new dense voxel size (so `getDenseMap()` is
empty); the part_000 revision also rebuilds `voxelMap` empty at the
expanded voxel size, while the part_001 revision leaves `voxelMap`
untouched. -/
theorem C6_setParameters_resets (p : MapperParameters) (sA : PartA.Submap)
    (sB : PartB.Submap) :
    (PartA.setParameters p sA).denseMap =
      VoxelizedPointCloud.fresh (V3.const p.denseMapBuilder.mapVoxelSize) ∧
    VoxelizedPointCloud.isEmptyV (PartA.setParameters p sA).denseMap = true ∧
    (PartA.setParameters p sA).voxelMap =
      VoxelMap.fresh
        (V3.const (voxelExpansionFactorAdjacencyBasedRevisiting *
          p.mapBuilder.mapVoxelSize)) ∧
    VoxelizedPointCloud.isEmptyV (PartB.setParameters p sB).voxelizedCloud =
      true ∧
    (PartB.setParameters p sB).voxelMap = sB.voxelMap :=
  ⟨rfl, rfl, rfl, rfl, rfl⟩
